import Mathlib

set_option maxRecDepth 8000

/-!
Verification of the Visualization Decision Engine of the
Data-Visualization-System repository (src/main.py).

The engine consists of the column profiling and rule cascade inlined in
`recommend_chart_type` (main.py, lines 1361-1440) and the per-chart-type
data-reduction policy inlined in `generate_chart` (main.py, lines 1441-1513).
Both are shallowly embedded below:

* dataframes become `DFrame` (a header of named, typed columns plus a list of
  rows); pandas dtypes are abstracted to `Dtype` (numeric / datetime / object),
  which is exactly the granularity `is_numeric_dtype` and
  `is_datetime64_any_dtype` observe;
* the Python `None` produced by `x_unique = x_series.nunique() if not x_is_num
  else None` becomes `Option Nat`, and the Python comparisons `x_unique <= 7` /
  `x_unique > 20`, which raise `TypeError` when `x_unique` is `None`, become
  fallible branches of an `Except Unit` computation;
* a missing column access `self.data[x_col]` raises `KeyError`, which
  `recommend_chart_type` catches with a bare `except KeyError: return`; this is
  the `RecOutcome.silent` outcome below;
* `df.sample(n)` draws `n` rows without replacement and unseeded; it is
  modelled by a deterministic choice of `n` rows (a prefix), which is faithful
  in row count, the only aspect any verified statement depends on;
* `resample('D').mean()` buckets rows by day of the datetime index, emits one
  mean-aggregated row for every calendar day between the minimum and the
  maximum day (gap days included, as pandas does), with non-numeric cells
  aggregated to NaN; datetime values are modelled at day granularity.

The in-memory (`self.data`) path of the GUI methods is modelled; the Dask
sampling path and the matplotlib drawing calls are outside the engine.
-/

namespace DataViz

/-- Abstraction of a pandas column dtype at the granularity observed by
`is_numeric_dtype` and `is_datetime64_any_dtype`: a dtype is numeric,
datetime64, or neither (object/categorical). -/
inductive Dtype where
  | numeric
  | datetime
  | object
deriving DecidableEq

/-- A cell value: a number, a datetime (at day granularity), a string, or
missing (NaN/NaT). -/
inductive Val where
  | num (q : Rat)
  | dt (t : Int)
  | str (s : String)
  | nan
deriving DecidableEq

/-- Whether a cell is missing. -/
def Val.isNan : Val → Bool
  | .nan => true
  | _ => false

/-- Day key of a cell, for daily resampling; non-datetime cells are given a
default key (never exercised: resampling is only applied to datetime
columns). -/
def Val.dayOf : Val → Int
  | .dt t => t
  | _ => 0

/-- A pandas Series: its dtype and its values. -/
structure Series where
  dtype : Dtype
  values : List Val
deriving DecidableEq

/-- A pandas DataFrame: a header of named, typed columns, and the rows. -/
structure DFrame where
  columns : List (String × Dtype)
  rows : List (List Val)
deriving DecidableEq

/-- `len(df)`: the number of rows. -/
def DFrame.len (d : DFrame) : Nat := d.rows.length

/-- Index of the first column with the given name, `none` when the column is
absent (in which case pandas raises `KeyError`). -/
def DFrame.colIdx (d : DFrame) (name : String) : Option Nat :=
  d.columns.findIdx? (fun h => h.1 == name)

/-- `df[name]`: extract a column as a Series; `none` models `KeyError`. -/
def DFrame.col (d : DFrame) (name : String) : Option Series :=
  match d.colIdx name with
  | none => none
  | some i =>
      some ⟨(d.columns.getD i (("", Dtype.object))).2,
            d.rows.map (fun r => r.getD i Val.nan)⟩

/-- `pandas.api.types.is_numeric_dtype` on a Series. -/
def is_numeric_dtype (s : Series) : Bool :=
  match s.dtype with
  | .numeric => true
  | _ => false

/-- `pandas.api.types.is_datetime64_any_dtype` on a Series. -/
def is_datetime64_any_dtype (s : Series) : Bool :=
  match s.dtype with
  | .datetime => true
  | _ => false

/-- `Series.nunique()`: the number of distinct values, NaN excluded
(pandas default `dropna=True`). -/
def nunique (vs : List Val) : Nat :=
  ((vs.filter (fun v => !v.isNan)).dedup).length

/-- Comparison used by `Series.is_monotonic_increasing`: values of the same
kind compare by their order; mixed or missing comparisons fail (pandas
reports such a series as not monotonic). -/
def valLeB : Val → Val → Bool
  | .num a, .num b => decide (a ≤ b)
  | .dt a, .dt b => decide (a ≤ b)
  | .str a, .str b => decide (a ≤ b)
  | _, _ => false

/-- All adjacent pairs satisfy `valLeB`. -/
def chainLeB : List Val → Bool
  | a :: b :: rest => valLeB a b && chainLeB (b :: rest)
  | _ => true

/-- `Series.is_monotonic_increasing`: non-decreasing, and false as soon as a
value is missing (pandas yields False on NaN). -/
def is_monotonic_increasing (vs : List Val) : Bool :=
  !(vs.any Val.isNan) && chainLeB vs

/-- The chart types of the application. -/
inductive ChartType where
  | bar
  | line
  | scatter
  | histogram
  | box
  | pie
deriving DecidableEq

/-- The profile variables computed by `recommend_chart_type` before the rule
cascade (main.py lines 1383-1388): `x_is_num`, `y_is_num`, `x_is_date`,
`x_unique` (None when X is numeric), `y_cardinality`, the monotonicity of the
X series, and `total_points = len(x_series)`. -/
structure Profile where
  x_is_num : Bool
  y_is_num : Bool
  x_is_date : Bool
  x_unique : Option Nat
  y_cardinality : Nat
  x_is_monotonic : Bool
  total_points : Nat
deriving DecidableEq

/-- Profile a pair of selected columns, exactly as the body of
`recommend_chart_type` computes its local variables. -/
def profileOf (x_series y_series : Series) : Profile :=
  let xn := is_numeric_dtype x_series
  ⟨xn,
   is_numeric_dtype y_series,
   is_datetime64_any_dtype x_series,
   if xn then none else some (nunique x_series.values),
   nunique y_series.values,
   is_monotonic_increasing x_series.values,
   x_series.values.length⟩

/-- The rule cascade and the two post-hoc overrides of `recommend_chart_type`
(main.py lines 1390-1434). A Python comparison of `None` against an int
raises `TypeError`; those comparisons are the `Except.error` branches: rule 2
compares `x_unique <= 7` and rule 6 compares `x_unique > 20` (the latter only
after `y_is_num` short-circuits to true). -/
def recommend_cascade (p : Profile) : Except Unit (ChartType × String) :=
  let base : Except Unit (ChartType × String) :=
    if p.x_is_date && p.y_is_num then
      .ok (ChartType.line, "Time series data detected")
    else if !p.x_is_num && p.y_is_num then
      match p.x_unique with
      | none => .error ()
      | some u =>
        if u ≤ 7 then
          if p.total_points ≤ 50 then
            .ok (if u ≤ 5 then ChartType.pie else ChartType.bar,
                 toString u ++ " categories, good for comparison")
          else
            .ok (ChartType.bar, toString u ++ " categories (too many points for pie)")
        else
          .ok (ChartType.bar, "Many categories (" ++ toString u ++ "), best for comparisons")
    else if p.x_is_num && p.y_is_num then
      if p.x_is_monotonic then
        .ok (ChartType.line, "Ordered numerical data")
      else
        .ok (ChartType.scatter, "Two numerical variables, shows correlation")
    else if p.x_is_num && !p.y_is_num then
      .ok (ChartType.box, "Numerical X with categorical Y")
    else if p.y_cardinality ≤ 5 && p.x_is_num then
      .ok (ChartType.box, "Limited Y categories, shows distribution")
    else if p.y_is_num then
      match p.x_unique with
      | none => .error ()
      | some u =>
        if 20 < u then
          .ok (ChartType.histogram, "Many unique X values, show distribution")
        else
          .ok (ChartType.bar, "Default recommendation")
    else
      .ok (ChartType.bar, "Default recommendation")
  match base with
  | .error e => .error e
  | .ok (c, reason) =>
    let r1 :=
      if c = ChartType.pie ∧ 100 < p.total_points then
        (ChartType.bar, "Too many points for pie chart (use for <100 points)")
      else (c, reason)
    if r1.1 = ChartType.histogram ∧ p.y_is_num = false then
      .ok (ChartType.bar, "Histogram requires numerical Y-axis")
    else
      .ok r1

/-- The chart type the cascade settles on, `none` when the cascade would raise
a `TypeError`. -/
def recommended (p : Profile) : Option ChartType :=
  (recommend_cascade p).toOption.map Prod.fst

/-- Outcome of a `recommend_chart_type` call: a `KeyError` silently swallowed
by the `except KeyError: return` handler, an uncaught exception, or a
recommendation shown to the user. -/
inductive RecOutcome where
  | silent
  | uncaught
  | ok (c : ChartType) (reason : String)
deriving DecidableEq

/-- The engine part of `recommend_chart_type` (main.py lines 1373-1440): look
both selected columns up (a missing one raises `KeyError`, caught by the
trailing handler), profile them, run the cascade and the overrides. -/
def recommend_chart_type (data : DFrame) (x_col y_col : String) : RecOutcome :=
  match data.col x_col, data.col y_col with
  | some x_series, some y_series =>
    match recommend_cascade (profileOf x_series y_series) with
    | .ok (c, reason) => RecOutcome.ok c reason
    | .error _ => RecOutcome.uncaught
  | _, _ => RecOutcome.silent

/-- Plot parameters produced alongside the reduced data: the histogram bin
count and the pie category limit (`bins` and `top_categories` in
`generate_chart`). -/
structure PlotParams where
  bins : Option Nat
  top_categories : Option Nat
deriving DecidableEq

/-- Plot parameters of the chart types that set none. -/
def noParams : PlotParams := ⟨none, none⟩

/-- `df.sample(n)`: `n` rows of the frame. The source samples uniformly
without replacement and unseeded; the model picks the first `n` rows, which
is faithful in row count (the only property any statement below uses). -/
def DFrame.sampleN (d : DFrame) (n : Nat) : DFrame :=
  ⟨d.columns, d.rows.take n⟩

/-- Mean aggregation of a bucket of cells, as `resample('D').mean()` applies
per column: the mean of the numeric cells, NaN skipped, NaN when no numeric
cell is present. -/
def meanAgg (vs : List Val) : Val :=
  let nums := vs.filterMap (fun v => match v with | Val.num q => some q | _ => none)
  match nums with
  | [] => Val.nan
  | _ => Val.num ((nums.foldl (fun a b => a + b) 0) / (nums.length : Rat))

/-- Indices of the columns other than the resampling index column. -/
def otherIdxList (d : DFrame) (i : Nat) : List Nat :=
  (List.range d.columns.length).filter (fun j => j ≠ i)

/-- Header after `set_index(x_col).resample('D').mean().reset_index()`: the
datetime column first, the aggregated (hence numeric) columns after it. -/
def resampleHeader (d : DFrame) (i : Nat) : List (String × Dtype) :=
  ((d.columns.getD i (("", Dtype.object))).1, Dtype.datetime) ::
    (otherIdxList d i).map (fun j => ((d.columns.getD j (("", Dtype.object))).1, Dtype.numeric))

/-- Day keys of the rows along column `i`. -/
def dayListOf (d : DFrame) (i : Nat) : List Int :=
  d.rows.map (fun r => (r.getD i Val.nan).dayOf)

/-- One output row of the daily resampling: the day, then the per-column mean
over the rows falling on that day. -/
def resampleRow (d : DFrame) (i : Nat) (day : Int) : List Val :=
  Val.dt day ::
    (otherIdxList d i).map (fun j =>
      meanAgg ((d.rows.filter (fun r => decide ((r.getD i Val.nan).dayOf = day))).map
        (fun r => r.getD j Val.nan)))

/-- `data.set_index(x_col).resample('D').mean().reset_index()`: one
mean-aggregated row per calendar day from the minimum to the maximum day of
column `i`, gap days included (pandas emits them with NaN means). -/
def resample_daily (d : DFrame) (i : Nat) : DFrame :=
  match dayListOf d i with
  | [] => ⟨resampleHeader d i, []⟩
  | d0 :: rest =>
    let lo := rest.foldl min d0
    let hi := rest.foldl max d0
    ⟨resampleHeader d i,
     (List.range ((hi - lo).toNat + 1)).map (fun k : Nat => resampleRow d i (lo + (k : Int)))⟩

/-- `Series.sum()` over a list of cells: the sum of the numeric cells, NaN
skipped (pandas default), `0` when none. -/
def sumVals (vs : List Val) : Rat :=
  (vs.filterMap (fun v => match v with | Val.num q => some q | _ => none)).foldl
    (fun a b => a + b) 0

/-- Total of the Y column over the rows whose X cell equals `k`:
the value `groupby(x_col)[y_col].sum()` assigns to group `k`. -/
def groupTotal (d : DFrame) (ix iy : Nat) (k : Val) : Rat :=
  sumVals ((d.rows.filter (fun r => decide (r.getD ix Val.nan = k))).map
    (fun r => r.getD iy Val.nan))

/-- The group keys of `groupby(x_col)`: the distinct non-NaN values of the X
column (pandas drops NaN keys by default). -/
def pieKeys (d : DFrame) (ix : Nat) : List Val :=
  ((d.rows.map (fun r => r.getD ix Val.nan)).filter (fun v => !v.isNan)).dedup

/-- `groupby(x_col)[y_col].sum().sort_values(ascending=False)`: the group
totals sorted in descending order of total. -/
def pieSorted (d : DFrame) (ix iy : Nat) : List (Val × Rat) :=
  ((pieKeys d ix).map (fun k => (k, groupTotal d ix iy k))).insertionSort
    (fun a b => b.2 ≤ a.2)

/-- `top_categories` of the pie branch: 8 when the frame has more than 1000
rows, 10 otherwise. -/
def topCategories (d : DFrame) : Nat :=
  if 1000 < d.len then 8 else 10

/-- The pie reduction
`data.groupby(x_col)[y_col].sum().sort_values(ascending=False).head(top_categories)`
as a two-column frame (group key, group total). -/
def pieReduce (d : DFrame) (x_col y_col : String) (ix iy : Nat) : DFrame :=
  ⟨[(x_col, (d.columns.getD ix (("", Dtype.object))).2), (y_col, Dtype.numeric)],
   ((pieSorted d ix iy).take (topCategories d)).map (fun p => [p.1, Val.num p.2])⟩

/-- The data-reduction decisions of `generate_chart` (main.py lines
1470-1513), per chart type: which rows are handed to the plotting collaborator
and with which chart-type-specific plot parameters. A `none` result models a
`KeyError` from a column access the reduction itself performs (line resampling
reads `data[x_col]` only after `len(data) > 10000` short-circuits; the pie
branch reads both columns). The drawing calls themselves are outside the
engine. -/
def reduce_chart (data : DFrame) (chart_type : ChartType) (x_col y_col : String) :
    Option (DFrame × PlotParams) :=
  match chart_type with
  | .bar =>
    some (if 10000 < data.len then data.sampleN (min 1000 data.len) else data, noParams)
  | .line =>
    if 10000 < data.len then
      match data.colIdx x_col with
      | none => none
      | some i =>
        if (data.columns.getD i (("", Dtype.object))).2 = Dtype.datetime then
          some (resample_daily data i, noParams)
        else
          some (data, noParams)
    else
      some (data, noParams)
  | .scatter =>
    some (if 5000 < data.len then data.sampleN (min 2000 data.len) else data, noParams)
  | .histogram =>
    some (data, ⟨some (if 10000 < data.len then 50 else 20), none⟩)
  | .box =>
    some (if 10000 < data.len then data.sampleN (min 5000 data.len) else data, noParams)
  | .pie =>
    match data.colIdx x_col, data.colIdx y_col with
    | some ix, some iy =>
      some (pieReduce data x_col y_col ix iy, ⟨none, some (topCategories data)⟩)
    | _, _ => none

/-- Weight of a reduced pie row: its second cell, the group total. -/
def pieRowWeight (row : List Val) : Rat :=
  match row.getD 1 Val.nan with
  | Val.num q => q
  | _ => 0

/-! Concrete series and frames used to instantiate the theorems below. -/

/-- A categorical X series: 4 points over 3 distinct categories. -/
def sCat4 : Series :=
  ⟨Dtype.object, [Val.str ("a"), Val.str ("b"), Val.str ("c"), Val.str ("a")]⟩

/-- A categorical X series with a single category repeated 101 times. -/
def sCat101 : Series :=
  ⟨Dtype.object, List.replicate 101 (Val.str ("a"))⟩

/-- A small numeric Y series. -/
def sNum4 : Series :=
  ⟨Dtype.numeric, [Val.num 1, Val.num 2, Val.num 3, Val.num 4]⟩

/-- A two-point datetime series. -/
def sDt2 : Series :=
  ⟨Dtype.datetime, [Val.dt 1, Val.dt 2]⟩

/-- A monotonically increasing numeric series. -/
def sNumMono : Series :=
  ⟨Dtype.numeric, [Val.num 1, Val.num 2]⟩

/-- A non-monotonic numeric series. -/
def sNumNon : Series :=
  ⟨Dtype.numeric, [Val.num 2, Val.num 1]⟩

/-- A categorical X series with 21 distinct values: the shape cascade rule 6
nominally targets (numeric Y, more than 20 distinct X values). -/
def sCat21 : Series :=
  ⟨Dtype.object, (List.range 21).map (fun i => Val.num (i : Nat))⟩

/-- A one-row frame with numeric columns x and y. -/
def dfXY1 : DFrame :=
  ⟨[(("x"), Dtype.numeric), (("y"), Dtype.numeric)], [[Val.num 1, Val.num 2]]⟩

/-- A one-row frame holding only column x: column y is absent. -/
def dfNoY : DFrame :=
  ⟨[(("x"), Dtype.numeric)], [[Val.num 1]]⟩

/-- A zero-row frame with numeric columns x and y. -/
def dfEmpty : DFrame :=
  ⟨[(("x"), Dtype.numeric), (("y"), Dtype.numeric)], []⟩

/-- A 10001-row frame whose x column is numeric (not datetime): above every
row threshold, yet the line reduction leaves it untouched. -/
def dfBig : DFrame :=
  ⟨[(("x"), Dtype.numeric), (("y"), Dtype.numeric)],
   List.replicate 10001 [Val.num 0, Val.num 0]⟩

/-- A two-row frame with numeric columns x and y. -/
def dfBar2 : DFrame :=
  ⟨[(("x"), Dtype.numeric), (("y"), Dtype.numeric)],
   [[Val.num 1, Val.num 2], [Val.num 3, Val.num 4]]⟩

/-- A three-row frame with a categorical column and a numeric column, two
rows sharing the category `a`. -/
def dfPie3 : DFrame :=
  ⟨[(("cat"), Dtype.object), (("val"), Dtype.numeric)],
   [[Val.str ("a"), Val.num 3], [Val.str ("b"), Val.num 1], [Val.str ("a"), Val.num 2]]⟩

end DataViz

namespace DataViz

/-- Rule 1: a datetime X with numeric Y yields a line chart, whatever the
other profile fields hold. -/
theorem cascade_eq_datetime (p : Profile) (hd : p.x_is_date = true) (hy : p.y_is_num = true) :
    recommend_cascade p = Except.ok (ChartType.line, "Time series data detected") := by
  simp [recommend_cascade, hd, hy]

/-- Rule 4: numeric X with non-numeric Y yields a box chart. -/
theorem cascade_eq_num_cat (p : Profile) (hn : p.x_is_num = true) (hy : p.y_is_num = false) :
    recommend_cascade p = Except.ok (ChartType.box, "Numerical X with categorical Y") := by
  simp [recommend_cascade, hn, hy]

/-- Default rule: non-numeric X with non-numeric Y falls through to bar. -/
theorem cascade_eq_fallthrough (p : Profile) (hn : p.x_is_num = false) (hy : p.y_is_num = false) :
    recommend_cascade p = Except.ok (ChartType.bar, "Default recommendation") := by
  simp [recommend_cascade, hn, hy]

/-- Rule 3: numeric X and Y yield line when X is monotonic, scatter
otherwise. -/
theorem recommended_numnum (p : Profile) (hn : p.x_is_num = true) (hd : p.x_is_date = false)
    (hy : p.y_is_num = true) :
    recommended p = some (if p.x_is_monotonic then ChartType.line else ChartType.scatter) := by
  cases hm : p.x_is_monotonic <;>
    simp [recommended, recommend_cascade, hn, hd, hy, hm, Except.toOption]

/-- Rule 2 with the pie override folded in: categorical X with numeric Y and
a defined distinct-count settles the nested category/point-count tests; the
pie result is only reachable with at most 50 points, so the
more-than-100-points override never rewrites it. -/
theorem recommended_cat (p : Profile) (u : Nat) (hn : p.x_is_num = false)
    (hd : p.x_is_date = false) (hy : p.y_is_num = true) (hu : p.x_unique = some u) :
    recommended p =
      some (if u ≤ 7 then
              (if p.total_points ≤ 50 then
                (if u ≤ 5 then ChartType.pie else ChartType.bar)
               else ChartType.bar)
            else ChartType.bar) := by
  simp only [recommended, recommend_cascade, hn, hd, hy, hu]
  split_ifs <;> simp_all [Except.toOption]
  rw [if_neg (by omega)]

end DataViz

namespace DataViz

/-- A settled recommendation exposes a successful cascade run. -/
theorem recommended_some (p : Profile) (c : ChartType) (h : recommended p = some c) :
    ∃ r, recommend_cascade p = Except.ok (c, r) := by
  unfold recommended at h
  cases hc : recommend_cascade p with
  | error e => rw [hc] at h; simp [Except.toOption] at h
  | ok pr =>
    obtain ⟨c', r⟩ := pr
    rw [hc] at h
    simp [Except.toOption] at h
    subst h
    exact ⟨r, rfl⟩

/-- On any realizable profile pair the cascade terminates at an `ok` result
that is never a histogram. -/
theorem cascade_total_series (sx sy : Series) :
    ∃ c r, recommend_cascade (profileOf sx sy) = Except.ok (c, r) ∧
      c ≠ ChartType.histogram := by
  cases hdx : sx.dtype <;> cases hdy : sy.dtype
  case numeric.numeric =>
    obtain ⟨r, hr⟩ := recommended_some _ _ (recommended_numnum (profileOf sx sy)
      (by simp [profileOf, is_numeric_dtype, hdx])
      (by simp [profileOf, is_datetime64_any_dtype, hdx])
      (by simp [profileOf, is_numeric_dtype, hdy]))
    exact ⟨_, r, hr, by cases (profileOf sx sy).x_is_monotonic <;> simp⟩
  case numeric.datetime =>
    exact ⟨_, _, cascade_eq_num_cat _ (by simp [profileOf, is_numeric_dtype, hdx])
      (by simp [profileOf, is_numeric_dtype, hdy]), by simp⟩
  case numeric.object =>
    exact ⟨_, _, cascade_eq_num_cat _ (by simp [profileOf, is_numeric_dtype, hdx])
      (by simp [profileOf, is_numeric_dtype, hdy]), by simp⟩
  case datetime.numeric =>
    exact ⟨_, _, cascade_eq_datetime _ (by simp [profileOf, is_datetime64_any_dtype, hdx])
      (by simp [profileOf, is_numeric_dtype, hdy]), by simp⟩
  case datetime.datetime =>
    exact ⟨_, _, cascade_eq_fallthrough _ (by simp [profileOf, is_numeric_dtype, hdx])
      (by simp [profileOf, is_numeric_dtype, hdy]), by simp⟩
  case datetime.object =>
    exact ⟨_, _, cascade_eq_fallthrough _ (by simp [profileOf, is_numeric_dtype, hdx])
      (by simp [profileOf, is_numeric_dtype, hdy]), by simp⟩
  case object.numeric =>
    obtain ⟨r, hr⟩ := recommended_some _ _ (recommended_cat (profileOf sx sy)
      (nunique sx.values)
      (by simp [profileOf, is_numeric_dtype, hdx])
      (by simp [profileOf, is_datetime64_any_dtype, hdx])
      (by simp [profileOf, is_numeric_dtype, hdy])
      (by simp [profileOf, is_numeric_dtype, hdx]))
    refine ⟨_, r, hr, ?_⟩
    split_ifs <;> simp
  case object.datetime =>
    exact ⟨_, _, cascade_eq_fallthrough _ (by simp [profileOf, is_numeric_dtype, hdx])
      (by simp [profileOf, is_numeric_dtype, hdy]), by simp⟩
  case object.object =>
    exact ⟨_, _, cascade_eq_fallthrough _ (by simp [profileOf, is_numeric_dtype, hdx])
      (by simp [profileOf, is_numeric_dtype, hdy]), by simp⟩

end DataViz

namespace DataViz

/-- C1: for every profile pair with categorical X of at most 5 distinct
values and numeric Y, at most 50 total points yields a pie recommendation,
and more than 100 total points yields bar, never pie. -/
theorem claim_pie_small_categorical (sx sy : Series)
    (hx : sx.dtype = Dtype.object) (hy : sy.dtype = Dtype.numeric)
    (hu : nunique sx.values ≤ 5) :
    (sx.values.length ≤ 50 → recommended (profileOf sx sy) = some ChartType.pie) ∧
    (100 < sx.values.length → recommended (profileOf sx sy) = some ChartType.bar) := by
  have hc := recommended_cat (profileOf sx sy) (nunique sx.values)
    (by simp [profileOf, is_numeric_dtype, hx])
    (by simp [profileOf, is_datetime64_any_dtype, hx])
    (by simp [profileOf, is_numeric_dtype, hy])
    (by simp [profileOf, is_numeric_dtype, hx])
  have htp : (profileOf sx sy).total_points = sx.values.length := rfl
  rw [htp] at hc
  constructor
  · intro h50
    rw [hc, if_pos (by omega), if_pos h50, if_pos hu]
  · intro h100
    rw [hc, if_pos (by omega), if_neg (by omega)]

/-- Witness for C1 at concrete series: 3 categories over 4 points yields pie;
one category over 101 points yields bar. -/
theorem claim_pie_small_categorical_witness :
    recommended (profileOf sCat4 sNum4) = some ChartType.pie ∧
    recommended (profileOf sCat101 sNum4) = some ChartType.bar :=
  ⟨(claim_pie_small_categorical sCat4 sNum4 (by decide) (by decide) (by decide)).1 (by decide),
   (claim_pie_small_categorical sCat101 sNum4 (by decide) (by decide) (by decide)).2 (by decide)⟩

/-- C2: a datetime-classified X with numeric Y is always recommended a line
chart, whatever the distinct counts, monotonicity or point count. -/
theorem claim_datetime_line (sx sy : Series)
    (hx : sx.dtype = Dtype.datetime) (hy : sy.dtype = Dtype.numeric) :
    recommended (profileOf sx sy) = some ChartType.line := by
  rw [recommended, cascade_eq_datetime _
    (by simp [profileOf, is_datetime64_any_dtype, hx])
    (by simp [profileOf, is_numeric_dtype, hy])]
  rfl

/-- Witness for C2 at a concrete two-point datetime series. -/
theorem claim_datetime_line_witness :
    recommended (profileOf sDt2 sNum4) = some ChartType.line :=
  claim_datetime_line sDt2 sNum4 (by decide) (by decide)

/-- C3: with numeric X and numeric Y the recommendation is line exactly when
X is monotonically increasing and scatter otherwise. -/
theorem claim_numeric_monotonic (sx sy : Series)
    (hx : sx.dtype = Dtype.numeric) (hy : sy.dtype = Dtype.numeric) :
    (is_monotonic_increasing sx.values = true →
       recommended (profileOf sx sy) = some ChartType.line) ∧
    (is_monotonic_increasing sx.values = false →
       recommended (profileOf sx sy) = some ChartType.scatter) := by
  have h := recommended_numnum (profileOf sx sy)
    (by simp [profileOf, is_numeric_dtype, hx])
    (by simp [profileOf, is_datetime64_any_dtype, hx])
    (by simp [profileOf, is_numeric_dtype, hy])
  have hm : (profileOf sx sy).x_is_monotonic = is_monotonic_increasing sx.values := rfl
  rw [hm] at h
  constructor <;> intro hmv <;> rw [h, hmv] <;> simp

/-- Witness for C3 at concrete monotonic and non-monotonic series. -/
theorem claim_numeric_monotonic_witness :
    recommended (profileOf sNumMono sNum4) = some ChartType.line ∧
    recommended (profileOf sNumNon sNum4) = some ChartType.scatter :=
  ⟨(claim_numeric_monotonic sNumMono sNum4 (by decide) (by decide)).1 (by decide),
   (claim_numeric_monotonic sNumNon sNum4 (by decide) (by decide)).2 (by decide)⟩

/-- C4 fails on the code: the canonical rule-6 shape (numeric Y, categorical
X with 21 distinct values) is consumed by rule 2 and yields bar, not
histogram: rule 6 is never reached. -/
theorem claim_rule6_counterexample :
    sCat21.dtype = Dtype.object ∧ sNum4.dtype = Dtype.numeric ∧
    nunique sCat21.values = 21 ∧
    recommended (profileOf sCat21 sNum4) = some ChartType.bar := by decide

/-- C4 amended: any profile pair with numeric Y and categorical X whose
distinct-count exceeds 20 is already matched by rule 2 (more than 7
categories) and recommended bar; cascade rule 6 is dead code. -/
theorem claim_rule6_amended (sx sy : Series)
    (hx : sx.dtype = Dtype.object) (hy : sy.dtype = Dtype.numeric)
    (h20 : 20 < nunique sx.values) :
    recommended (profileOf sx sy) = some ChartType.bar := by
  rw [recommended_cat (profileOf sx sy) (nunique sx.values)
    (by simp [profileOf, is_numeric_dtype, hx])
    (by simp [profileOf, is_datetime64_any_dtype, hx])
    (by simp [profileOf, is_numeric_dtype, hy])
    (by simp [profileOf, is_numeric_dtype, hx]),
    if_neg (by omega)]

/-- Witness for the amended C4 at the concrete 21-category series. -/
theorem claim_rule6_amended_witness :
    recommended (profileOf sCat21 sNum4) = some ChartType.bar :=
  claim_rule6_amended sCat21 sNum4 (by decide) (by decide) (by decide)

/-- C6: on any dataset and any pair of columns present in it,
`recommend_chart_type` raises no exception and reports a recommendation:
the Python comparisons against an undefined distinct-count are never
evaluated. -/
theorem claim_recommend_total (d : DFrame) (x_col y_col : String)
    (hx : (d.col x_col).isSome = true) (hy : (d.col y_col).isSome = true) :
    ∃ c r, recommend_chart_type d x_col y_col = RecOutcome.ok c r := by
  obtain ⟨xs, hxs⟩ := Option.isSome_iff_exists.mp hx
  obtain ⟨ys, hys⟩ := Option.isSome_iff_exists.mp hy
  obtain ⟨c, r, hc, _⟩ := cascade_total_series xs ys
  exact ⟨c, r, by simp only [recommend_chart_type, hxs, hys, hc]⟩

/-- Witness for C6 at a concrete one-row frame. -/
theorem claim_recommend_total_witness :
    ∃ c r, recommend_chart_type dfXY1 ("x") ("y") = RecOutcome.ok c r :=
  claim_recommend_total dfXY1 ("x") ("y") (by decide) (by decide)

/-- C10: the recommendation is always one of line, bar, pie, scatter or box,
and never histogram: rules 5 and 6 and the histogram override cannot fire. -/
theorem claim_never_histogram (sx sy : Series) :
    ∃ c, recommended (profileOf sx sy) = some c ∧
      (c = ChartType.line ∨ c = ChartType.bar ∨ c = ChartType.pie ∨
       c = ChartType.scatter ∨ c = ChartType.box) := by
  obtain ⟨c, r, hc, hne⟩ := cascade_total_series sx sy
  refine ⟨c, ?_, ?_⟩
  · rw [recommended, hc]; rfl
  · cases c <;> simp_all

end DataViz

namespace DataViz

/-- C5 fails on the code: a missing column makes `recommend_chart_type`
return silently (the `KeyError` is swallowed, nothing is reported), and a
zero-row dataset raises no error at all: the cascade still reports a
recommendation. -/
theorem claim_profile_errors_counterexample :
    recommend_chart_type dfNoY ("x") ("y") = RecOutcome.silent ∧
    dfEmpty.len = 0 ∧
    recommend_chart_type dfEmpty ("x") ("y") =
      RecOutcome.ok ChartType.line ("Ordered numerical data") := by decide

/-- C5 amended: when either requested column is absent the `KeyError` is
caught by the bare handler and the call returns silently, reporting nothing;
on a zero-row dataset with both columns present no failure occurs and a
recommendation is still reported. -/
theorem claim_profile_errors_amended (d : DFrame) (x_col y_col : String) :
    (((d.col x_col).isNone = true ∨ (d.col y_col).isNone = true) →
       recommend_chart_type d x_col y_col = RecOutcome.silent) ∧
    (d.len = 0 → (d.col x_col).isSome = true → (d.col y_col).isSome = true →
       ∃ c r, recommend_chart_type d x_col y_col = RecOutcome.ok c r) := by
  constructor
  · rintro (h | h)
    · rw [Option.isNone_iff_eq_none] at h
      simp only [recommend_chart_type, h]
    · rw [Option.isNone_iff_eq_none] at h
      simp only [recommend_chart_type, h]
      cases d.col x_col <;> rfl
  · intro _ hx hy
    obtain ⟨xs, hxs⟩ := Option.isSome_iff_exists.mp hx
    obtain ⟨ys, hys⟩ := Option.isSome_iff_exists.mp hy
    obtain ⟨c, r, hc, _⟩ := cascade_total_series xs ys
    exact ⟨c, r, by simp only [recommend_chart_type, hxs, hys, hc]⟩

/-- Witness for the amended C5: the one-column frame is silently dropped and
the empty two-column frame still gets a recommendation. -/
theorem claim_profile_errors_amended_witness :
    recommend_chart_type dfNoY ("x") ("y") = RecOutcome.silent ∧
    (∃ c r, recommend_chart_type dfEmpty ("x") ("y") = RecOutcome.ok c r) :=
  ⟨(claim_profile_errors_amended dfNoY ("x") ("y")).1 (Or.inr (by decide)),
   (claim_profile_errors_amended dfEmpty ("x") ("y")).2 (by decide) (by decide) (by decide)⟩

end DataViz

namespace DataViz

theorem sampleN_len (d : DFrame) (n : Nat) : (d.sampleN n).len = min n d.len := by
  simp [DFrame.sampleN, DFrame.len]

/-- A single sampling branch bounds the row count by the cutoff and never
increases it. -/
theorem sample_once_le (d : DFrame) (cut cap : Nat) (hcap : cap ≤ cut) :
    (if cut < d.len then d.sampleN (min cap d.len) else d).len ≤ cut ∧
    (if cut < d.len then d.sampleN (min cap d.len) else d).len ≤ d.len := by
  by_cases hb : cut < d.len
  · rw [if_pos hb]
    rw [sampleN_len]
    omega
  · rw [if_neg hb]
    omega

theorem foldl_min_le_init (l : List Int) (a : Int) : l.foldl min a ≤ a := by
  induction l generalizing a with
  | nil => simp
  | cons x t ih => exact le_trans (ih (min a x)) (min_le_left a x)

theorem init_le_foldl_max (l : List Int) (a : Int) : a ≤ l.foldl max a := by
  induction l generalizing a with
  | nil => simp
  | cons x t ih => exact le_trans (le_max_left a x) (ih (max a x))

theorem le_foldl_min (l : List Int) (a c : Int) (ha : c ≤ a) (h : ∀ x ∈ l, c ≤ x) :
    c ≤ l.foldl min a := by
  induction l generalizing a with
  | nil => simpa using ha
  | cons x t ih =>
    exact ih (min a x) (le_min ha (h x (by simp))) (fun z hz => h z (by simp [hz]))

theorem foldl_max_le (l : List Int) (a c : Int) (ha : a ≤ c) (h : ∀ x ∈ l, x ≤ c) :
    l.foldl max a ≤ c := by
  induction l generalizing a with
  | nil => simpa using ha
  | cons x t ih =>
    exact ih (max a x) (max_le ha (h x (by simp))) (fun z hz => h z (by simp [hz]))

/-- Row count of a daily resampling: the day span from the minimum to the
maximum day key. -/
theorem resample_daily_len (d : DFrame) (i : Nat) (d0 : Int) (rest : List Int)
    (h : dayListOf d i = d0 :: rest) :
    (resample_daily d i).len =
      ((rest.foldl max d0) - (rest.foldl min d0)).toNat + 1 := by
  unfold resample_daily
  rw [h]
  simp only [DFrame.len, List.length_map, List.length_range]

/-- The day keys of a daily resampling form the full range from the minimum
to the maximum input day. -/
theorem dayListOf_resample (d : DFrame) (i : Nat) (d0 : Int) (rest : List Int)
    (h : dayListOf d i = d0 :: rest) :
    dayListOf (resample_daily d i) 0 =
      (List.range (((rest.foldl max d0) - (rest.foldl min d0)).toNat + 1)).map
        (fun k : Nat => rest.foldl min d0 + (k : Int)) := by
  unfold resample_daily
  rw [h]
  simp only [dayListOf, List.map_map]
  rfl

/-- The header of a daily resampling, whatever the rows hold. -/
theorem resample_daily_columns (d : DFrame) (i : Nat) :
    (resample_daily d i).columns = resampleHeader d i := by
  unfold resample_daily
  split <;> rfl

/-- In a resampled header only the leading column is datetime-typed. -/
theorem resample_columns_dtype (d : DFrame) (i j : Nat)
    (h : ((resampleHeader d i).getD j (("", Dtype.object))).2 = Dtype.datetime) :
    j = 0 := by
  cases j with
  | zero => rfl
  | succ k =>
    exfalso
    rw [resampleHeader, List.getD_cons_succ] at h
    revert h
    generalize otherIdxList d i = l
    induction l generalizing k with
    | nil => simp [List.getD]
    | cons a t ih =>
      cases k with
      | zero => simp
      | succ m => simpa using ih m

/-- Resampling an already daily-resampled frame on its datetime column does
not increase the row count: the day keys stay within the original span. -/
theorem resample_twice_le (d : DFrame) (i : Nat) (d0 : Int) (rest : List Int)
    (h : dayListOf d i = d0 :: rest) :
    (resample_daily (resample_daily d i) 0).len ≤ (resample_daily d i).len := by
  have hlohi : rest.foldl min d0 ≤ rest.foldl max d0 :=
    le_trans (foldl_min_le_init rest d0) (init_le_foldl_max rest d0)
  have hlen1 := resample_daily_len d i d0 rest h
  have hdl := dayListOf_resample d i d0 rest h
  have hmem : ∀ x ∈ dayListOf (resample_daily d i) 0,
      rest.foldl min d0 ≤ x ∧ x ≤ rest.foldl max d0 := by
    intro x hx
    rw [hdl] at hx
    obtain ⟨k, hk, rfl⟩ := List.mem_map.mp hx
    rw [List.mem_range] at hk
    omega
  cases hL : dayListOf (resample_daily d i) 0 with
  | nil => rw [hdl] at hL; simp at hL
  | cons e0 etail =>
    have he0 : rest.foldl min d0 ≤ e0 ∧ e0 ≤ rest.foldl max d0 :=
      hmem e0 (by rw [hL]; simp)
    have hlo : rest.foldl min d0 ≤ etail.foldl min e0 :=
      le_foldl_min etail e0 _ he0.1 (fun z hz => (hmem z (by rw [hL]; simp [hz])).1)
    have hhi : etail.foldl max e0 ≤ rest.foldl max d0 :=
      foldl_max_le etail e0 _ he0.2 (fun z hz => (hmem z (by rw [hL]; simp [hz])).2)
    rw [resample_daily_len (resample_daily d i) 0 e0 etail hL, hlen1]
    omega

/-- C7: the histogram branch hands the dataset over unchanged and only sets
the bin count: 50 above 10000 rows, 20 otherwise. -/
theorem claim_histogram_reduce (d : DFrame) (x_col y_col : String) :
    reduce_chart d ChartType.histogram x_col y_col =
      some (d, ⟨some (if 10000 < d.len then 50 else 20), none⟩) := rfl

end DataViz

namespace DataViz

/-- C8: the pie reduction keeps at most 8 groups above 1000 input rows and at
most 10 otherwise; every produced row pairs a non-missing value of the X
column with the sum of Y over the rows of that group (so the tail mass is
dropped, never bucketed under a fresh key); rows are ordered by descending
group total. -/
theorem claim_pie_reduce (d : DFrame) (x_col y_col : String) (ix iy : Nat)
    (hx : d.colIdx x_col = some ix) (hy : d.colIdx y_col = some iy) :
    ∃ r pp, reduce_chart d ChartType.pie x_col y_col = some (r, pp) ∧
      r.len ≤ (if 1000 < d.len then 8 else 10) ∧
      (∀ row ∈ r.rows, ∃ k,
          row = [k, Val.num (groupTotal d ix iy k)] ∧
          k ∈ d.rows.map (fun row2 => row2.getD ix Val.nan) ∧ k.isNan = false) ∧
      List.Pairwise (fun r1 r2 => pieRowWeight r2 ≤ pieRowWeight r1) r.rows := by
  refine ⟨pieReduce d x_col y_col ix iy, ⟨none, some (topCategories d)⟩,
    by simp only [reduce_chart, hx, hy], ?_, ?_, ?_⟩
  · have h1 : (pieKeys d ix).length ≤ d.len := by
      refine le_trans (List.Sublist.length_le (List.dedup_sublist _)) ?_
      refine le_trans (List.length_filter_le _ _) ?_
      simp [DFrame.len]
    have h2 : (pieReduce d x_col y_col ix iy).len =
        min (topCategories d) (pieSorted d ix iy).length := by
      simp [pieReduce, DFrame.len]
    have h3 : topCategories d = if 1000 < d.len then 8 else 10 := rfl
    omega
  · intro row hrow
    simp only [pieReduce] at hrow
    obtain ⟨p, hp, rfl⟩ := List.mem_map.mp hrow
    have hp2 : p ∈ pieSorted d ix iy := List.mem_of_mem_take hp
    rw [pieSorted, List.mem_insertionSort] at hp2
    obtain ⟨k, hk, rfl⟩ := List.mem_map.mp hp2
    rw [pieKeys, List.mem_dedup, List.mem_filter] at hk
    exact ⟨k, rfl, hk.1, by simpa using hk.2⟩
  · haveI htot : IsTotal (Val × Rat) (fun a b => b.2 ≤ a.2) := ⟨fun a b => le_total b.2 a.2⟩
    haveI htr : IsTrans (Val × Rat) (fun a b => b.2 ≤ a.2) :=
      ⟨fun a b c h1 h2 => le_trans h2 h1⟩
    have hs : List.Pairwise (fun a b : Val × Rat => b.2 ≤ a.2) (pieSorted d ix iy) :=
      List.sorted_insertionSort _ _
    have ht : List.Pairwise (fun a b : Val × Rat => b.2 ≤ a.2)
        ((pieSorted d ix iy).take (topCategories d)) :=
      hs.sublist (List.take_sublist _ _)
    simp only [pieReduce]
    exact ht.map _ (fun a b hab => by simpa [pieRowWeight] using hab)

/-- Witness for C8 at a concrete three-row frame with two categories. -/
theorem claim_pie_reduce_witness :
    ∃ r pp, reduce_chart dfPie3 ChartType.pie ("cat") ("val") = some (r, pp) ∧
      r.len ≤ (if 1000 < dfPie3.len then 8 else 10) ∧
      (∀ row ∈ r.rows, ∃ k,
          row = [k, Val.num (groupTotal dfPie3 0 1 k)] ∧
          k ∈ dfPie3.rows.map (fun row2 => row2.getD 0 Val.nan) ∧ k.isNan = false) ∧
      List.Pairwise (fun r1 r2 => pieRowWeight r2 ≤ pieRowWeight r1) r.rows :=
  claim_pie_reduce dfPie3 ("cat") ("val") 0 1 (by decide) (by decide)

end DataViz

namespace DataViz

/-- The pie reduction never emits more rows than its input and never more
than 10 groups. -/
theorem pieReduce_len_le (d : DFrame) (x_col y_col : String) (ix iy : Nat) :
    (pieReduce d x_col y_col ix iy).len ≤ d.len ∧
    (pieReduce d x_col y_col ix iy).len ≤ 10 := by
  have h1 : (pieKeys d ix).length ≤ d.len := by
    refine le_trans (List.Sublist.length_le (List.dedup_sublist _)) ?_
    refine le_trans (List.length_filter_le _ _) ?_
    simp [DFrame.len]
  have h2 : (pieReduce d x_col y_col ix iy).len =
      min (topCategories d) (pieSorted d ix iy).length := by
    simp [pieReduce, DFrame.len]
  have h3 : (pieSorted d ix iy).length = (pieKeys d ix).length := by
    simp [pieSorted]
  have h4 : topCategories d ≤ 10 := by
    unfold topCategories
    split <;> omega
  omega
end DataViz

namespace DataViz

/-- C9 amended: a second reduction never increases the row count, and for
bar, scatter, box and pie the result respects the per-type bound; line (when
X is not datetime-typed, or when the day span stays wide) and histogram can
keep the row count above 10000, so the original threshold clause is dropped
for them. -/
theorem claim_reduce_idem_amended (d : DFrame) (t : ChartType) (x_col y_col : String)
    (d1 d2 : DFrame) (p1 p2 : PlotParams)
    (h1 : reduce_chart d t x_col y_col = some (d1, p1))
    (h2 : reduce_chart d1 t x_col y_col = some (d2, p2)) :
    d2.len ≤ d1.len ∧
    (t = ChartType.bar → d2.len ≤ 10000) ∧
    (t = ChartType.scatter → d2.len ≤ 5000) ∧
    (t = ChartType.box → d2.len ≤ 10000) ∧
    (t = ChartType.pie → d2.len ≤ 10) := by
  cases t
  case bar =>
    simp only [reduce_chart, Option.some.injEq, Prod.mk.injEq] at h2
    obtain ⟨hd2, -⟩ := h2
    have hb := sample_once_le d1 10000 1000 (by omega)
    rw [hd2] at hb
    refine ⟨hb.2, fun _ => hb.1, ?_, ?_, ?_⟩ <;> intro hx <;> cases hx
  case scatter =>
    simp only [reduce_chart, Option.some.injEq, Prod.mk.injEq] at h2
    obtain ⟨hd2, -⟩ := h2
    have hb := sample_once_le d1 5000 2000 (by omega)
    rw [hd2] at hb
    refine ⟨hb.2, ?_, fun _ => hb.1, ?_, ?_⟩ <;> intro hx <;> cases hx
  case box =>
    simp only [reduce_chart, Option.some.injEq, Prod.mk.injEq] at h2
    obtain ⟨hd2, -⟩ := h2
    have hb := sample_once_le d1 10000 5000 (by omega)
    rw [hd2] at hb
    refine ⟨hb.2, ?_, ?_, fun _ => hb.1, ?_⟩ <;> intro hx <;> cases hx
  case histogram =>
    simp only [reduce_chart, Option.some.injEq, Prod.mk.injEq] at h2
    obtain ⟨hd2, -⟩ := h2
    subst hd2
    refine ⟨le_refl _, ?_, ?_, ?_, ?_⟩ <;> intro hx <;> cases hx
  case pie =>
    simp only [reduce_chart] at h2
    cases hx2 : d1.colIdx x_col with
    | none =>
      cases hy2 : d1.colIdx y_col <;> simp only [hx2, hy2] at h2 <;>
        exact Option.noConfusion h2
    | some ix =>
      cases hy2 : d1.colIdx y_col with
      | none => simp only [hx2, hy2] at h2; exact Option.noConfusion h2
      | some iy =>
        simp only [hx2, hy2] at h2
        have h2' : pieReduce d1 x_col y_col ix iy = d2 ∧
            (⟨none, some (topCategories d1)⟩ : PlotParams) = p2 := by
          simpa using h2
        obtain ⟨hd2, -⟩ := h2'
        have hb := pieReduce_len_le d1 x_col y_col ix iy
        rw [hd2] at hb
        refine ⟨hb.1, ?_, ?_, ?_, fun _ => hb.2⟩ <;> intro hx <;> cases hx
  case line =>
    have hrest : (ChartType.line = ChartType.bar → d2.len ≤ 10000) ∧
        (ChartType.line = ChartType.scatter → d2.len ≤ 5000) ∧
        (ChartType.line = ChartType.box → d2.len ≤ 10000) ∧
        (ChartType.line = ChartType.pie → d2.len ≤ 10) := by
      refine ⟨?_, ?_, ?_, ?_⟩ <;> intro hx <;> cases hx
    refine ⟨?_, hrest⟩
    simp only [reduce_chart] at h1 h2
    by_cases hL2 : 10000 < d1.len
    · rw [if_pos hL2] at h2
      cases hj : d1.colIdx x_col with
      | none => simp only [hj] at h2; exact Option.noConfusion h2
      | some j =>
        simp only [hj] at h2
        by_cases hdt2 : (d1.columns.getD j (("", Dtype.object))).2 = Dtype.datetime
        · rw [if_pos hdt2] at h2
          have h2' : resample_daily d1 j = d2 ∧ noParams = p2 := by simpa using h2
          obtain ⟨hd2, -⟩ := h2'
          by_cases hL1 : 10000 < d.len
          · rw [if_pos hL1] at h1
            cases hi : d.colIdx x_col with
            | none => simp only [hi] at h1; exact Option.noConfusion h1
            | some i =>
              simp only [hi] at h1
              by_cases hdt1 : (d.columns.getD i (("", Dtype.object))).2 = Dtype.datetime
              · rw [if_pos hdt1] at h1
                have h1' : resample_daily d i = d1 ∧ noParams = p1 := by simpa using h1
                obtain ⟨hd1, -⟩ := h1'
                have hj0 : j = 0 := by
                  apply resample_columns_dtype d i
                  rw [← resample_daily_columns d i, hd1]
                  exact hdt2
                have hne : d.rows.length ≠ 0 := by
                  have : d.len = d.rows.length := rfl
                  omega
                cases hdli : dayListOf d i with
                | nil =>
                  exfalso
                  have hlen0 := congrArg List.length hdli
                  simp only [dayListOf, List.length_map, List.length_nil] at hlen0
                  exact hne hlen0
                | cons e0 et =>
                  rw [← hd2, ← hd1, hj0]
                  exact resample_twice_le d i e0 et hdli
              · rw [if_neg hdt1] at h1
                have h1' : d = d1 ∧ noParams = p1 := by simpa using h1
                obtain ⟨hd1, -⟩ := h1'
                exfalso
                subst hd1
                rw [hi] at hj
                have hij : i = j := by injection hj
                rw [hij] at hdt1
                exact hdt1 hdt2
          · rw [if_neg hL1] at h1
            have h1' : d = d1 ∧ noParams = p1 := by simpa using h1
            obtain ⟨hd1, -⟩ := h1'
            exfalso
            subst hd1
            exact hL1 hL2
        · rw [if_neg hdt2] at h2
          have h2' : d1 = d2 ∧ noParams = p2 := by simpa using h2
          obtain ⟨hd2, -⟩ := h2'
          subst hd2
          exact le_refl _
    · rw [if_neg hL2] at h2
      have h2' : d1 = d2 ∧ noParams = p2 := by simpa using h2
      obtain ⟨hd2, -⟩ := h2'
      subst hd2
      exact le_refl _

end DataViz

namespace DataViz

/-- C9 fails as stated: on a 10001-row frame with a numeric (non-datetime) x
column the line reduction is the identity, so reducing twice leaves 10001
rows, above the 10000-row line threshold. -/
theorem claim_reduce_idem_counterexample :
    reduce_chart dfBig ChartType.line ("x") ("y") = some (dfBig, noParams) ∧
    10000 < dfBig.len := by
  have hlen : dfBig.len = 10001 := by
    show (List.replicate 10001 [Val.num 0, Val.num 0]).length = 10001
    rw [List.length_replicate]
  constructor
  · simp only [reduce_chart]
    rw [if_pos (by rw [hlen]; omega)]
    rfl
  · rw [hlen]; omega

/-- Witness for the amended C9 on a concrete two-row frame under the bar
policy: both reductions are the identity and all bounds hold. -/
theorem claim_reduce_idem_amended_witness :
    dfBar2.len ≤ dfBar2.len ∧
    (ChartType.bar = ChartType.bar → dfBar2.len ≤ 10000) ∧
    (ChartType.bar = ChartType.scatter → dfBar2.len ≤ 5000) ∧
    (ChartType.bar = ChartType.box → dfBar2.len ≤ 10000) ∧
    (ChartType.bar = ChartType.pie → dfBar2.len ≤ 10) :=
  claim_reduce_idem_amended dfBar2 ChartType.bar ("x") ("y") dfBar2 dfBar2 noParams noParams
    (by decide) (by decide)

end DataViz
